import Mathlib

/-!
# Verification of the Rosegarden LV2 plugin-hosting core

A shallow embedding of src/src/sound/LV2PluginInstance.cpp: the per-block
event drain of LV2PluginInstance::run, the mono/stereo channel adaptation,
the worker-response hand-off, the control-port value clamping, and the
lifecycle sequences of the constructor and setIdealChannelCount.

Machine floats (sample_t, port values) are modelled as rationals; all of the
arithmetic the theorems touch is exact in the source as well.  RealTime is
modelled as rational seconds.  The external ALSA decoder snd_midi_event_decode
is deterministic per event, so an event is modelled together with its decoding
result.
-/

namespace RGLV2

/-- Models snd_seq_event_t together with the outcome of the external ALSA
decoder snd_midi_event_decode on it: some bytes when the decoder returns a
positive byte count, none when it fails (bytes <= 0). -/
structure SndSeqEvent where
  decoded : Option (List Nat)
deriving DecidableEq, Repr

/-- Models LV2_Atom_Event as built in LV2PluginInstance::run: a frame offset
(the time.frames stamp) and the raw MIDI body bytes. -/
structure AtomEvent where
  frames : Nat
  bytes : List Nat
deriving DecidableEq, Repr

/-- Models one entry of m_atomInputPorts / m_atomOutputPorts (struct AtomPort):
port index, the MIDI flag, and the contents of the atom sequence buffer. -/
structure AtomPortModel where
  index : Nat
  isMidi : Bool
  atomSeq : List AtomEvent
deriving DecidableEq, Repr

/-- Modelled from the spec: RealTime::realTime2Frame is not part of the
sources at hand; the spec states frameOffset = round((eventTime −
blockStartTime) × sampleRate), with RealTime modelled as rational seconds. -/
def realTime2Frame (t : ℚ) (sampleRate : Nat) : Int :=
  round (t * (sampleRate : ℚ))

/-- The frame offset computed for an event at absolute time t in the block
starting at rt (LV2PluginInstance.cpp lines 626-629): a late event is clamped
to the block start, then the offset is converted to frames and cast to
size_t. -/
def frameOffsetOf (rt : ℚ) (sampleRate : Nat) (t : ℚ) : Nat :=
  (realTime2Frame ((if t < rt then rt else t) - rt) sampleRate).toNat

/-- The event-drain walk of LV2PluginInstance::run (lines 621-675) over the
time-ordered event buffer.  Returns the remaining buffer, the list of
(time, atom event) pairs delivered to the MIDI atom input ports, and whether
the walk aborted on a decode failure (in the source: unlock-and-return,
leaving the failing event in the buffer). -/
def drainLoop (rt : ℚ) (sampleRate blockSize : Nat) :
    List (ℚ × SndSeqEvent) → List (ℚ × SndSeqEvent) × List (ℚ × AtomEvent) × Bool
  | [] => ([], [], false)
  | (t, e) :: rest =>
    if blockSize < frameOffsetOf rt sampleRate t then
      ((t, e) :: rest, [], false)
    else
      match e.decoded with
      | none => ((t, e) :: rest, [], true)
      | some bytes =>
        ((drainLoop rt sampleRate blockSize rest).1,
         (t, ⟨frameOffsetOf rt sampleRate t, bytes⟩) ::
           (drainLoop rt sampleRate blockSize rest).2.1,
         (drainLoop rt sampleRate blockSize rest).2.2)

/-- LV2PluginInstance::sendEvent (lines 606-612): m_eventBuffer[eventTime] =
*seqEvent on the std::map, modelled on the sorted association list — insert
in key order, replacing any entry with the same key. -/
def sendEvent (t : ℚ) (e : SndSeqEvent) :
    List (ℚ × SndSeqEvent) → List (ℚ × SndSeqEvent)
  | [] => [(t, e)]
  | (t2, e2) :: rest =>
    if t < t2 then (t, e) :: (t2, e2) :: rest
    else if t = t2 then (t, e) :: rest
    else (t2, e2) :: sendEvent t e rest

/-- LV2PluginInstance::discardEvents (lines 250-254). -/
def discardEvents (_buf : List (ℚ × SndSeqEvent)) : List (ℚ × SndSeqEvent) :=
  []

/-- LV2Utils::PluginPosition — the (instrument, position) key that routes
worker jobs back to their instance. -/
structure PluginKey where
  instrument : Nat
  position : Nat
deriving DecidableEq, Repr

/-- A worker job payload (LV2Utils::WorkerJob: size + data). -/
structure WorkerJobM where
  data : List Nat
deriving DecidableEq, Repr

/-- The parts of LV2_Worker_Interface the run loop looks at: whether the
plugin exposes the interface at all is the Option at use sites; hasEndRun
records whether the optional end_run member is a non-null pointer. -/
structure WorkerIfaceModel where
  hasEndRun : Bool
deriving DecidableEq, Repr

/-- Modelled from the spec: LV2Utils::Worker::getResponse (not among the
sources at hand) is the non-blocking poll of the completed-job queue; each
call removes and returns the first completed job whose key matches, so the
run-loop while loop removes exactly the matching jobs, in queue order.
Returns (jobs handed to the plugin in order, remaining queue). -/
def collectResponses (k : PluginKey) :
    List (PluginKey × WorkerJobM) → List WorkerJobM × List (PluginKey × WorkerJobM)
  | [] => ([], [])
  | (k2, j) :: rest =>
    if k2 == k then
      (j :: (collectResponses k rest).1, (collectResponses k rest).2)
    else
      ((collectResponses k rest).1, (k2, j) :: (collectResponses k rest).2)

/-- The stereo-to-mono pre-pass of run (lines 677-687): when channels are
distributed, input buffer 0 (the one connected to the mono plugin) becomes
the average of the two host channels, sample by sample over the block.  The
audio buffers have blockSize samples each. -/
def stereoToMono : List (List ℚ) → List (List ℚ)
  | b0 :: b1 :: rest => (List.zipWith (fun x y => (x + y) / 2) b0 b1) :: b1 :: rest
  | bufs => bufs

/-- The mono-to-stereo post-pass of run (lines 737-742): output buffer 0 (the
only one connected to the mono plugin) is copied into output buffer 1 over
the whole block. -/
def monoToStereo : List (List ℚ) → List (List ℚ)
  | b0 :: _ :: rest => b0 :: b0 :: rest
  | bufs => bufs

/-- Appending the drained events to every MIDI-flagged atom input port
(run lines 664-674; lv2_atom_sequence_append_event modelled as list append —
the 800 KB capacity of the source buffer is never in play here). -/
def appendToMidiPorts (delivered : List AtomEvent) (ports : List AtomPortModel) :
    List AtomPortModel :=
  ports.map fun p => if p.isMidi then ⟨p.index, p.isMidi, p.atomSeq ++ delivered⟩ else p

/-- The fields of LV2PluginInstance that the run call reads and writes.
(The atom output reporting to LV2Utils::updatePortValue is outside the
claims and not modelled.) -/
structure LV2InstanceState where
  eventBuffer : List (ℚ × SndSeqEvent)
  atomInputPorts : List AtomPortModel
  inputBuffers : List (List ℚ)
  outputBuffers : List (List ℚ)
  distributeChannels : Bool
  blockSize : Nat
  sampleRate : Nat
  instrument : Nat
  position : Nat
  mRun : Bool
deriving DecidableEq, Repr

/-- What one run call did, beyond the state update: the (time, atom event)
pairs appended to the MIDI atom input ports, whether lilv_instance_run was
reached, the worker responses forwarded to work_response in order, and
whether end_run was called. -/
structure RunTrace where
  delivered : List (ℚ × AtomEvent)
  pluginRan : Bool
  workResponses : List WorkerJobM
  endRunCalled : Bool
deriving DecidableEq, Repr

structure RunResult where
  state : LV2InstanceState
  queue : List (PluginKey × WorkerJobM)
  trace : RunTrace
deriving DecidableEq, Repr

/-- LV2PluginInstance::run (lines 614-746).  pluginRun stands for
lilv_instance_run: from the input buffers and the previous output buffers it
yields the plugin-written output buffers (under channel distribution only
buffer 0 of each is connected, lines 453-467).  workerIface is none when
lilv_instance_get_extension_data found no worker interface.  queue is the
worker response queue shared with the worker thread.

Control flow follows the source: the drain loop runs first; on a decode
failure the call returns at once (unlock-and-return, line 638) — events
already appended stay in the atom buffers, the failing event stays in
m_eventBuffer, and nothing further happens in the block.  Otherwise: the
channel-adaptation pre-pass, the plugin callback, the worker-response
hand-off and end_run, the clearing of the atom input buffers, and the
channel-adaptation post-pass. -/
def run (pluginRun : List (List ℚ) → List (List ℚ) → List (List ℚ))
    (workerIface : Option WorkerIfaceModel)
    (queue : List (PluginKey × WorkerJobM))
    (rt : ℚ) (s : LV2InstanceState) : RunResult :=
  let drained := drainLoop rt s.sampleRate s.blockSize s.eventBuffer
  let delivered := drained.2.1
  let ports1 := appendToMidiPorts (delivered.map Prod.snd) s.atomInputPorts
  if drained.2.2 then
    ⟨{ s with eventBuffer := drained.1, atomInputPorts := ports1 },
     queue,
     ⟨delivered, false, [], false⟩⟩
  else
    let inBufs := if s.distributeChannels then stereoToMono s.inputBuffers
                  else s.inputBuffers
    let outBufs := pluginRun inBufs s.outputBuffers
    let key : PluginKey := ⟨s.instrument, s.position⟩
    let responses := match workerIface with
      | none => ([], queue)
      | some _ => collectResponses key queue
    let endRun := match workerIface with
      | none => false
      | some w => w.hasEndRun
    let ports2 := ports1.map fun p => ⟨p.index, p.isMidi, []⟩
    let outBufs2 := if s.distributeChannels then monoToStereo outBufs else outBufs
    ⟨{ s with eventBuffer := drained.1, atomInputPorts := ports2,
              inputBuffers := inBufs, outputBuffers := outBufs2, mRun := true },
     responses.2,
     ⟨delivered, true, responses.1, endRun⟩⟩

/-- LV2Utils port type tags (LV2Utils::LV2AUDIO / LV2CONTROL / LV2MIDI). -/
inductive LV2PortType | LV2CONTROL | LV2AUDIO | LV2MIDI
deriving DecidableEq, Repr

/-- LV2Utils port protocol tags (LV2Utils::LV2FLOAT / LV2ATOM). -/
inductive LV2PortProtocol | LV2FLOAT | LV2ATOM
deriving DecidableEq, Repr

/-- The fields of LV2Utils::LV2PortData that LV2PluginInstance reads: type,
direction, protocol, and the declared control range. -/
structure LV2PortData where
  portType : LV2PortType
  isInput : Bool
  portProtocol : LV2PortProtocol
  min : ℚ
  max : ℚ
deriving DecidableEq, Repr

/-- The port lists built by the discovery loop of init (lines 138-209).
Audio port indices are C ints in the source (so that -1 can be pushed as a
sentinel), hence Int here. -/
structure PortLists where
  audioPortsIn : List Int
  audioPortsOut : List Int
  atomInputPorts : List AtomPortModel
  controlPortsIn : List (Nat × ℚ)
  controlPortsOut : List (Nat × ℚ)
deriving DecidableEq, Repr

/-- The discovery loop of LV2PluginInstance::init (lines 138-209), walking
the plugin's port list with its index: audio ports go to the audio index
lists; LV2CONTROL/LV2MIDI ports with the ATOM protocol become atom ports
(MIDI-flagged when the type is LV2MIDI; output atom ports are outside the
claims and are not collected); the rest become control ports initialised
to 0. -/
def classifyPortsFrom (i : Nat) : List LV2PortData → PortLists
  | [] => ⟨[], [], [], [], []⟩
  | pd :: rest =>
    let r := classifyPortsFrom (i + 1) rest
    match pd.portType with
    | LV2PortType.LV2AUDIO =>
      if pd.isInput then { r with audioPortsIn := (i : Int) :: r.audioPortsIn }
      else { r with audioPortsOut := (i : Int) :: r.audioPortsOut }
    | LV2PortType.LV2CONTROL =>
      match pd.portProtocol with
      | LV2PortProtocol.LV2ATOM =>
        if pd.isInput then
          { r with atomInputPorts := ⟨i, false, []⟩ :: r.atomInputPorts }
        else r
      | LV2PortProtocol.LV2FLOAT =>
        if pd.isInput then { r with controlPortsIn := (i, 0) :: r.controlPortsIn }
        else { r with controlPortsOut := (i, 0) :: r.controlPortsOut }
    | LV2PortType.LV2MIDI =>
      match pd.portProtocol with
      | LV2PortProtocol.LV2ATOM =>
        if pd.isInput then
          { r with atomInputPorts := ⟨i, true, []⟩ :: r.atomInputPorts }
        else r
      | LV2PortProtocol.LV2FLOAT =>
        if pd.isInput then { r with controlPortsIn := (i, 0) :: r.controlPortsIn }
        else { r with controlPortsOut := (i, 0) :: r.controlPortsOut }

/-- The result of LV2PluginInstance::init: the port lists after the
mono-on-stereo-bus adjustment, plus the distribution flag. -/
structure InitResult where
  ports : PortLists
  channelCount : Nat
  distributeChannels : Bool
deriving DecidableEq, Repr

/-- LV2PluginInstance::init (lines 127-222): classify the ports, then, when
the plugin has exactly one audio input and one audio output and the ideal
channel count is two, push -1 sentinels on both audio lists and set
m_distributeChannels. -/
def init (portData : List LV2PortData) (idealChannelCount : Nat) : InitResult :=
  let pl := classifyPortsFrom 0 portData
  if pl.audioPortsIn.length = 1 ∧ pl.audioPortsOut.length = 1 ∧
      idealChannelCount = 2 then
    ⟨{ pl with audioPortsIn := pl.audioPortsIn ++ [-1],
               audioPortsOut := pl.audioPortsOut ++ [-1] },
     idealChannelCount, true⟩
  else
    ⟨pl, idealChannelCount, false⟩

/-- Lookup in the std::map<int,float> m_controlPortsIn, modelled as an
association list. -/
def mapLookup (k : Nat) : List (Nat × ℚ) → Option ℚ
  | [] => none
  | (k2, v) :: rest => if k = k2 then some v else mapLookup k rest

/-- Assignment m[k] = v on the same map. -/
def mapUpdate (k : Nat) (v : ℚ) : List (Nat × ℚ) → List (Nat × ℚ)
  | [] => [(k, v)]
  | (k2, v2) :: rest =>
    if k = k2 then (k, v) :: rest else (k2, v2) :: mapUpdate k v rest

/-- The state LV2PluginInstance::setPortValue / getPortValue read and write:
the control-in map and the plugin port metadata (m_pluginData.ports). -/
structure ControlPortState where
  controlPortsIn : List (Nat × ℚ)
  ports : List LV2PortData
deriving DecidableEq, Repr

/-- A placeholder port datum for the out-of-range branch of the unchecked
index into m_pluginData.ports (never reached under the range bound the
theorems carry). -/
def defaultPortData : LV2PortData :=
  ⟨LV2PortType.LV2CONTROL, true, LV2PortProtocol.LV2FLOAT, 0, 0⟩

/-- LV2PluginInstance::setPortValue(portNumber, value) (lines 511-526): a
no-op when the port is not a control input; otherwise the value is clamped
to the declared [min, max] of m_pluginData.ports[portNumber] and stored.
(The source indexes m_pluginData.ports unchecked; portNumber is in range
whenever the port is in the control-in map, and theorems carry that bound.) -/
def setPortValue (st : ControlPortState) (portNumber : Nat) (value : ℚ) :
    ControlPortState :=
  match mapLookup portNumber st.controlPortsIn with
  | none => st
  | some _ =>
    let pd := st.ports.getD portNumber defaultPortData
    let v1 := if value < pd.min then pd.min else value
    let v2 := if pd.max < v1 then pd.max else v1
    { st with controlPortsIn := mapUpdate portNumber v2 st.controlPortsIn }

/-- LV2PluginInstance::getPortValue(portNumber) (lines 595-604): 0 when the
port is not a control input, else the stored value. -/
def getPortValue (st : ControlPortState) (portNumber : Nat) : ℚ :=
  match mapLookup portNumber st.controlPortsIn with
  | none => 0
  | some v => v

/-- The lifecycle calls an LV2PluginInstance issues against the plugin ABI
and its own buffers. -/
inductive LCall
  | instantiateCall
  | connectPortsCall
  | activateCall
  | deactivateCall
  | cleanupCall
  | runCall
  | freeBuffersCall
deriving DecidableEq, Repr

/-- Modelled from the spec: isOK (declared outside the sources at hand) is
false exactly when instantiation produced a null handle; the handle is
modelled as Option Unit. -/
def isOK (instHandle : Option Unit) : Bool :=
  instHandle.isSome

/-- The lifecycle part of the constructor (lines 111-115): instantiate sets
m_instance to whatever the ABI returned (lines 432-437: on null it only
warns and returns), then connectPorts and activate run only under isOK.
Returns the handle and the calls issued, in order. -/
def constructorLifecycle (abiHandle : Option Unit) : Option Unit × List LCall :=
  match abiHandle with
  | some h =>
    (some h, [LCall.instantiateCall, LCall.connectPortsCall, LCall.activateCall])
  | none => (none, [LCall.instantiateCall])

/-- Modelled from the spec: the engine invokes run once per block only for
instances that are runnable; a non-runnable instance is silently excluded
from the run loop. -/
def engineRunCalls (instHandle : Option Unit) (nBlocks : Nat) : List LCall :=
  if isOK instHandle then List.replicate nBlocks LCall.runCall else []

/-- The per-instance state setIdealChannelCount touches (or, as the theorems
show, leaves alone): the stored channel count, the instance handle, and the
host-side audio buffers allocated in the constructor (lines 94-104). -/
structure InstState where
  channelCount : Nat
  instHandle : Option Unit
  inputBuffers : List (List ℚ)
  outputBuffers : List (List ℚ)
deriving DecidableEq, Repr

/-- LV2PluginInstance::setIdealChannelCount (lines 256-274): equal count
returns at once; otherwise deactivate (only when isOK), cleanup
(lilv_instance_free), re-instantiate, and connectPorts + activate when the
new instantiation succeeded.  The source neither frees nor reallocates
m_inputBuffers / m_outputBuffers here, and m_channelCount is not updated.
abiHandle is what the new lilv_plugin_instantiate call returns. -/
def setIdealChannelCount (abiHandle : Option Unit) (channels : Nat)
    (st : InstState) : InstState × List LCall :=
  if channels = st.channelCount then (st, [])
  else
    let t1 := if isOK st.instHandle then [LCall.deactivateCall] else []
    let t2 := if isOK abiHandle
              then [LCall.connectPortsCall, LCall.activateCall] else []
    ({ st with instHandle := abiHandle },
     t1 ++ [LCall.cleanupCall, LCall.instantiateCall] ++ t2)

/-- The lifecycle part of the destructor (lines 341-380): deactivate when an
instance exists, cleanup, and free the host audio buffers.  This is the only
place the audio buffers are released. -/
def destructorLifecycle (st : InstState) : List LCall :=
  (if st.instHandle.isSome then [LCall.deactivateCall] else []) ++
    [LCall.cleanupCall, LCall.freeBuffersCall]

/-- A concrete instance state used by the closed theorems below: sample rate
1 Hz (so a time of k seconds lands on frame k), instrument 7, slot position
2, one MIDI-flagged atom input port, and the given event buffer, audio
buffers, distribution flag and block size. -/
def sampleState (buf : List (ℚ × SndSeqEvent)) (inBufs outBufs : List (List ℚ))
    (dist : Bool) (bs : Nat) : LV2InstanceState :=
  ⟨buf, [⟨3, true, []⟩], inBufs, outBufs, dist, bs, 1, 7, 2, false⟩

/-! ## Basic lemmas about the frame-offset computation -/

theorem round_le_round_of_le {x y : ℚ} (h : x ≤ y) : round x ≤ round y := by
  rw [round_eq, round_eq]
  exact Int.floor_le_floor (by linarith)

theorem frameOffsetOf_mono (rt : ℚ) (sr : Nat) {t t2 : ℚ} (h : t ≤ t2) :
    frameOffsetOf rt sr t ≤ frameOffsetOf rt sr t2 := by
  unfold frameOffsetOf realTime2Frame
  apply Int.toNat_le_toNat
  apply round_le_round_of_le
  have h1 : (if t < rt then rt else t) ≤ (if t2 < rt then rt else t2) := by
    split_ifs with h3 h4 h4
    · exact le_refl rt
    · exact le_of_not_lt h4
    · exact absurd (lt_of_le_of_lt h h4) h3
    · exact h
  have h2 : (0 : ℚ) ≤ (sr : ℚ) := Nat.cast_nonneg sr
  exact mul_le_mul_of_nonneg_right (by linarith) h2

theorem frameOffsetOf_of_late (rt : ℚ) (sr : Nat) {t : ℚ} (h : t < rt) :
    frameOffsetOf rt sr t = 0 := by
  unfold frameOffsetOf realTime2Frame
  rw [if_pos h]
  simp

/-! ## The shape of one event-drain walk -/

/-- The drain walk consumes a prefix of the time-ordered buffer: some n
events are taken; each one was decodable and due in this block and is
delivered with its computed frame offset; the rest of the buffer survives.
When the walk aborted, the head of the surviving buffer is the undecodable
due event; when it stopped normally with events left over, the head of the
leftovers is beyond the block. -/
theorem drainLoop_spec (rt : ℚ) (sr bs : Nat) (buf : List (ℚ × SndSeqEvent)) :
    ∃ n : Nat,
      (drainLoop rt sr bs buf).1 = buf.drop n ∧
      (drainLoop rt sr bs buf).2.1 =
        (buf.take n).map
          (fun p => (p.1, ⟨frameOffsetOf rt sr p.1, p.2.decoded.getD []⟩)) ∧
      (∀ p ∈ buf.take n,
        p.2.decoded.isSome = true ∧ frameOffsetOf rt sr p.1 ≤ bs) ∧
      ((drainLoop rt sr bs buf).2.2 = true →
        ∃ e rest2, buf.drop n = e :: rest2 ∧ e.2.decoded = none ∧
          frameOffsetOf rt sr e.1 ≤ bs) ∧
      ((drainLoop rt sr bs buf).2.2 = false →
        ∀ e rest2, buf.drop n = e :: rest2 → bs < frameOffsetOf rt sr e.1) := by
  induction buf with
  | nil =>
    exact ⟨0, by simp [drainLoop], by simp [drainLoop], by simp,
           by simp [drainLoop], by simp [drainLoop]⟩
  | cons hd rest ih =>
    obtain ⟨t, e⟩ := hd
    by_cases hof : bs < frameOffsetOf rt sr t
    · refine ⟨0, by simp [drainLoop, hof], by simp [drainLoop, hof], by simp,
              by simp [drainLoop, hof], ?_⟩
      intro _ e2 rest2 hdrop
      rw [List.drop_zero] at hdrop
      cases hdrop
      exact hof
    · cases he : e.decoded with
      | none =>
        refine ⟨0, by simp [drainLoop, hof, he], by simp [drainLoop, hof, he],
                by simp, ?_, by simp [drainLoop, hof, he]⟩
        intro _
        exact ⟨(t, e), rest, by simp, he, le_of_not_lt hof⟩
      | some bytes =>
        obtain ⟨n, h1, h2, h3, h4, h5⟩ := ih
        refine ⟨n + 1, ?_, ?_, ?_, ?_, ?_⟩
        · simpa [drainLoop, hof, he] using h1
        · simpa [drainLoop, hof, he] using h2
        · intro p hp
          rw [List.take_succ_cons] at hp
          rcases List.mem_cons.mp hp with hp | hp
          · rw [hp]
            exact ⟨by simp [he], le_of_not_lt hof⟩
          · exact h3 p hp
        · intro hab
          have hab2 : (drainLoop rt sr bs rest).2.2 = true := by
            simpa [drainLoop, hof, he] using hab
          simpa using h4 hab2
        · intro hab
          have hab2 : (drainLoop rt sr bs rest).2.2 = false := by
            simpa [drainLoop, hof, he] using hab
          simpa using h5 hab2

/-! ## Projections of the run call -/

theorem run_eventBuffer (pluginRun : List (List ℚ) → List (List ℚ) → List (List ℚ))
    (workerIface : Option WorkerIfaceModel) (queue : List (PluginKey × WorkerJobM))
    (rt : ℚ) (s : LV2InstanceState) :
    (run pluginRun workerIface queue rt s).state.eventBuffer =
      (drainLoop rt s.sampleRate s.blockSize s.eventBuffer).1 := by
  unfold run
  cases hab : (drainLoop rt s.sampleRate s.blockSize s.eventBuffer).2.2 <;>
    simp [hab]

theorem run_delivered (pluginRun : List (List ℚ) → List (List ℚ) → List (List ℚ))
    (workerIface : Option WorkerIfaceModel) (queue : List (PluginKey × WorkerJobM))
    (rt : ℚ) (s : LV2InstanceState) :
    (run pluginRun workerIface queue rt s).trace.delivered =
      (drainLoop rt s.sampleRate s.blockSize s.eventBuffer).2.1 := by
  unfold run
  cases hab : (drainLoop rt s.sampleRate s.blockSize s.eventBuffer).2.2 <;>
    simp [hab]

theorem run_abort_trace (pluginRun : List (List ℚ) → List (List ℚ) → List (List ℚ))
    (workerIface : Option WorkerIfaceModel) (queue : List (PluginKey × WorkerJobM))
    (rt : ℚ) (s : LV2InstanceState)
    (hab : (drainLoop rt s.sampleRate s.blockSize s.eventBuffer).2.2 = true) :
    (run pluginRun workerIface queue rt s).trace.pluginRan = false ∧
    (run pluginRun workerIface queue rt s).trace.workResponses = [] ∧
    (run pluginRun workerIface queue rt s).trace.endRunCalled = false ∧
    (run pluginRun workerIface queue rt s).queue = queue ∧
    (run pluginRun workerIface queue rt s).state.inputBuffers = s.inputBuffers ∧
    (run pluginRun workerIface queue rt s).state.outputBuffers = s.outputBuffers := by
  unfold run
  simp [hab]

theorem run_noAbort_buffers
    (pluginRun : List (List ℚ) → List (List ℚ) → List (List ℚ))
    (workerIface : Option WorkerIfaceModel) (queue : List (PluginKey × WorkerJobM))
    (rt : ℚ) (s : LV2InstanceState)
    (hab : (drainLoop rt s.sampleRate s.blockSize s.eventBuffer).2.2 = false) :
    (run pluginRun workerIface queue rt s).state.inputBuffers =
      (if s.distributeChannels then stereoToMono s.inputBuffers
       else s.inputBuffers) ∧
    (run pluginRun workerIface queue rt s).state.outputBuffers =
      (if s.distributeChannels then
        monoToStereo (pluginRun (stereoToMono s.inputBuffers) s.outputBuffers)
       else pluginRun s.inputBuffers s.outputBuffers) ∧
    (run pluginRun workerIface queue rt s).trace.pluginRan = true := by
  unfold run
  cases hd : s.distributeChannels <;> simp [hab, hd]

theorem run_noAbort_worker_some
    (pluginRun : List (List ℚ) → List (List ℚ) → List (List ℚ))
    (w : WorkerIfaceModel) (queue : List (PluginKey × WorkerJobM))
    (rt : ℚ) (s : LV2InstanceState)
    (hab : (drainLoop rt s.sampleRate s.blockSize s.eventBuffer).2.2 = false) :
    (run pluginRun (some w) queue rt s).trace.workResponses =
      (collectResponses ⟨s.instrument, s.position⟩ queue).1 ∧
    (run pluginRun (some w) queue rt s).queue =
      (collectResponses ⟨s.instrument, s.position⟩ queue).2 ∧
    (run pluginRun (some w) queue rt s).trace.endRunCalled = w.hasEndRun := by
  unfold run
  simp [hab]

theorem run_noAbort_worker_none
    (pluginRun : List (List ℚ) → List (List ℚ) → List (List ℚ))
    (queue : List (PluginKey × WorkerJobM)) (rt : ℚ) (s : LV2InstanceState)
    (hab : (drainLoop rt s.sampleRate s.blockSize s.eventBuffer).2.2 = false) :
    (run pluginRun none queue rt s).trace.workResponses = [] ∧
    (run pluginRun none queue rt s).queue = queue ∧
    (run pluginRun none queue rt s).trace.endRunCalled = false := by
  unfold run
  simp [hab]

/-! ## Worker response queue lemmas -/

theorem collectResponses_fst (k : PluginKey) (q : List (PluginKey × WorkerJobM)) :
    (collectResponses k q).1 =
      (q.filter (fun p => p.1 == k)).map Prod.snd := by
  induction q with
  | nil => simp [collectResponses]
  | cons hd tl ih =>
    obtain ⟨k2, j⟩ := hd
    by_cases hk : k2 == k <;> simp [collectResponses, List.filter_cons, hk, ih]

theorem collectResponses_snd (k : PluginKey) (q : List (PluginKey × WorkerJobM)) :
    (collectResponses k q).2 = q.filter (fun p => !(p.1 == k)) := by
  induction q with
  | nil => simp [collectResponses]
  | cons hd tl ih =>
    obtain ⟨k2, j⟩ := hd
    by_cases hk : k2 == k <;> simp [collectResponses, List.filter_cons, hk, ih]

/-! ## Control-port map lemmas -/

theorem mapLookup_mapUpdate_self (k : Nat) (v : ℚ) (l : List (Nat × ℚ)) :
    mapLookup k (mapUpdate k v l) = some v := by
  induction l with
  | nil => simp [mapUpdate, mapLookup]
  | cons hd tl ih =>
    obtain ⟨k2, v2⟩ := hd
    by_cases hk : k = k2 <;> simp [mapUpdate, mapLookup, hk, ih]

theorem clamp_ite_eq_max_min (lo hi x : ℚ) (h : lo ≤ hi) :
    (if hi < (if x < lo then lo else x) then hi else (if x < lo then lo else x)) =
      max lo (min x hi) := by
  rcases lt_or_le x lo with h1 | h1
  · rw [if_pos h1, if_neg (not_lt_of_le h)]
    rw [max_eq_left]
    exact le_trans (min_le_left x hi) (le_of_lt h1)
  · rw [if_neg (not_lt_of_le h1)]
    rcases lt_or_le hi x with h2 | h2
    · rw [if_pos h2, min_eq_right (le_of_lt h2), max_eq_right h]
    · rw [if_neg (not_lt_of_le h2), min_eq_left h2, max_eq_right h1]

/-! ## Event-buffer insertion lemmas -/

theorem mem_sendEvent {t : ℚ} {e : SndSeqEvent} {p : ℚ × SndSeqEvent}
    (buf : List (ℚ × SndSeqEvent)) (hp : p ∈ sendEvent t e buf) :
    p = (t, e) ∨ p ∈ buf := by
  induction buf with
  | nil => simpa [sendEvent] using hp
  | cons hd tl ih =>
    obtain ⟨t2, e2⟩ := hd
    by_cases h1 : t < t2
    · rw [sendEvent, if_pos h1] at hp
      rcases List.mem_cons.mp hp with hp | hp
      · exact Or.inl hp
      · exact Or.inr hp
    · by_cases h2 : t = t2
      · rw [sendEvent, if_neg h1, if_pos h2] at hp
        rcases List.mem_cons.mp hp with hp | hp
        · exact Or.inl hp
        · exact Or.inr (List.mem_cons_of_mem _ hp)
      · rw [sendEvent, if_neg h1, if_neg h2] at hp
        rcases List.mem_cons.mp hp with hp | hp
        · exact Or.inr (by rw [hp]; exact List.mem_cons_self _ _)
        · rcases ih hp with hp2 | hp2
          · exact Or.inl hp2
          · exact Or.inr (List.mem_cons_of_mem _ hp2)

theorem sendEvent_sorted (t : ℚ) (e : SndSeqEvent) (buf : List (ℚ × SndSeqEvent))
    (hs : List.Pairwise (fun p q : ℚ × SndSeqEvent => p.1 < q.1) buf) :
    List.Pairwise (fun p q : ℚ × SndSeqEvent => p.1 < q.1) (sendEvent t e buf) := by
  induction buf with
  | nil => simp [sendEvent]
  | cons hd tl ih =>
    obtain ⟨t2, e2⟩ := hd
    rcases List.pairwise_cons.mp hs with ⟨hhd, htl⟩
    by_cases h1 : t < t2
    · rw [sendEvent, if_pos h1]
      refine List.pairwise_cons.mpr ⟨?_, hs⟩
      intro q hq
      rcases List.mem_cons.mp hq with hq | hq
      · rw [hq]; exact h1
      · exact lt_trans h1 (hhd q hq)
    · by_cases h2 : t = t2
      · rw [sendEvent, if_neg h1, if_pos h2]
        refine List.pairwise_cons.mpr ⟨?_, htl⟩
        intro q hq
        rw [h2]
        exact hhd q hq
      · rw [sendEvent, if_neg h1, if_neg h2]
        refine List.pairwise_cons.mpr ⟨?_, ih htl⟩
        intro q hq
        rcases mem_sendEvent tl hq with hq2 | hq2
        · rw [hq2]
          exact lt_of_le_of_ne (le_of_not_lt h1) (Ne.symm h2)
        · exact hhd q hq2

theorem sendEvent_overwrite (t : ℚ) (e1 e2 : SndSeqEvent)
    (buf : List (ℚ × SndSeqEvent)) :
    sendEvent t e2 (sendEvent t e1 buf) = sendEvent t e2 buf := by
  induction buf with
  | nil => simp [sendEvent]
  | cons hd tl ih =>
    obtain ⟨t2, e3⟩ := hd
    by_cases h1 : t < t2
    · rw [sendEvent, if_pos h1, sendEvent, if_neg (lt_irrefl t), if_pos rfl,
          sendEvent, if_pos h1]
    · by_cases h2 : t = t2
      · rw [sendEvent, if_neg h1, if_pos h2, sendEvent, if_neg (lt_irrefl t),
            if_pos rfl, sendEvent, if_neg h1, if_pos h2]
      · rw [sendEvent, if_neg h1, if_neg h2, sendEvent, if_neg h1, if_neg h2,
            sendEvent, if_neg h1, if_neg h2, ih]

/-! ## Claim C1 — stop condition of the event drain -/

/-- Claim C1, counterexample to the claimed boundary: with block length 4 and
sample rate 1, the pending envelope at time 4 has frame offset 4, equal to
the block length.  The claim says the walk stops and the envelope stays in
the queue; the code (frameOffset > m_blockSize, line 630) delivers it and
removes it from the queue. -/
theorem c1_boundary_counterexample :
    frameOffsetOf 0 1 4 = 4 ∧
    (drainLoop 0 1 4 [(4, ⟨some [144, 60, 100]⟩)]).1 = [] ∧
    (drainLoop 0 1 4 [(4, ⟨some [144, 60, 100]⟩)]).2.1 =
      [(4, ⟨4, [144, 60, 100]⟩)] := by
  have hfo : frameOffsetOf 0 1 4 = 4 := by
    norm_num [frameOffsetOf, realTime2Frame, round_ofNat]
    decide
  refine ⟨hfo, ?_, ?_⟩ <;> simp [drainLoop, hfo]

/-- Claim C1 (amended): in the event-drain phase of run, the walk stops at
the first pending envelope whose frame offset is strictly greater than the
block length; that envelope and all later ones remain in the pending queue,
and every envelope delivered in this block has frame offset at most the
block length (so an envelope landing exactly on the block length is
delivered, not kept). -/
theorem c1_drain_stops_beyond_blockLength
    (pluginRun : List (List ℚ) → List (List ℚ) → List (List ℚ))
    (workerIface : Option WorkerIfaceModel) (queue : List (PluginKey × WorkerJobM))
    (rt : ℚ) (s : LV2InstanceState)
    (hab : (drainLoop rt s.sampleRate s.blockSize s.eventBuffer).2.2 = false) :
    (∀ d ∈ (run pluginRun workerIface queue rt s).trace.delivered,
      d.2.frames ≤ s.blockSize) ∧
    (∃ consumed, s.eventBuffer =
      consumed ++ (run pluginRun workerIface queue rt s).state.eventBuffer) ∧
    (∀ e rest2,
      (run pluginRun workerIface queue rt s).state.eventBuffer = e :: rest2 →
      s.blockSize < frameOffsetOf rt s.sampleRate e.1) := by
  obtain ⟨n, h1, h2, h3, h4, h5⟩ :=
    drainLoop_spec rt s.sampleRate s.blockSize s.eventBuffer
  rw [run_delivered, run_eventBuffer, h1, h2]
  refine ⟨?_, ⟨s.eventBuffer.take n, (List.take_append_drop n _).symm⟩, ?_⟩
  · intro d hd
    obtain ⟨p, hp, rfl⟩ := List.mem_map.mp hd
    exact (h3 p hp).2
  · intro e rest2 heq
    exact h5 hab e rest2 heq

/-- Claim C1, witness: a one-envelope queue whose event lands exactly on the
block boundary satisfies the amended statement, with the envelope
delivered. -/
theorem c1_drain_stops_beyond_blockLength_witness :
    (drainLoop 0 1 4
      (sampleState [(4, ⟨some [144, 60, 100]⟩)] [] [] false 4).eventBuffer).2.2 =
        false ∧
    ((∀ d ∈ (run (fun _ o => o) none [] 0
        (sampleState [(4, ⟨some [144, 60, 100]⟩)] [] [] false 4)).trace.delivered,
       d.2.frames ≤ 4) ∧
     (∃ consumed, [((4 : ℚ), SndSeqEvent.mk (some [144, 60, 100]))] =
       consumed ++ (run (fun _ o => o) none [] 0
         (sampleState [(4, ⟨some [144, 60, 100]⟩)] [] [] false 4)).state.eventBuffer) ∧
     (∀ e rest2,
       (run (fun _ o => o) none [] 0
         (sampleState [(4, ⟨some [144, 60, 100]⟩)] [] [] false 4)).state.eventBuffer =
           e :: rest2 →
       4 < frameOffsetOf 0 1 e.1)) := by
  have hfo : frameOffsetOf 0 1 4 = 4 := by
    norm_num [frameOffsetOf, realTime2Frame, round_ofNat]
    decide
  have hab : (drainLoop 0 1 4
      (sampleState [(4, ⟨some [144, 60, 100]⟩)] [] [] false 4).eventBuffer).2.2 =
        false := by
    simp [sampleState, drainLoop, hfo]
  exact ⟨hab,
    c1_drain_stops_beyond_blockLength (fun _ o => o) none [] 0
      (sampleState [(4, ⟨some [144, 60, 100]⟩)] [] [] false 4) hab⟩

/-! ## Claim C2 — decode failure behaviour -/

/-- Claim C2, counterexample: an undecodable envelope at time 0 followed by a
decodable one at time 1, block length 4, sample rate 1.  The claim says only
the bad envelope is dropped, the good one is still delivered and the plugin
callback still runs; the code instead returns from run at the failure (line
638): nothing is delivered, the plugin callback is not reached, and both
envelopes — including the undecodable one — are still in the queue. -/
theorem c2_decode_failure_counterexample :
    (run (fun _ o => o) none [] 0
      (sampleState [(0, ⟨none⟩), (1, ⟨some [128, 60, 0]⟩)] [] [] false 4)).trace.pluginRan
        = false ∧
    (run (fun _ o => o) none [] 0
      (sampleState [(0, ⟨none⟩), (1, ⟨some [128, 60, 0]⟩)] [] [] false 4)).trace.delivered
        = [] ∧
    (run (fun _ o => o) none [] 0
      (sampleState [(0, ⟨none⟩), (1, ⟨some [128, 60, 0]⟩)] [] [] false 4)).state.eventBuffer
        = [(0, ⟨none⟩), (1, ⟨some [128, 60, 0]⟩)] := by
  have hfo : frameOffsetOf 0 1 0 = 0 := by
    norm_num [frameOffsetOf, realTime2Frame]
  have hd : drainLoop 0 1 4 [((0 : ℚ), SndSeqEvent.mk none),
      (1, ⟨some [128, 60, 0]⟩)] =
      ([(0, ⟨none⟩), (1, ⟨some [128, 60, 0]⟩)], [], true) := by
    simp [drainLoop, hfo]
  refine ⟨?_, ?_, ?_⟩ <;>
    · unfold run
      simp [sampleState, hd]

/-- Claim C2 (amended): a decode failure does not merely drop the failing
envelope — it makes the run call return early: the plugin's process callback
is not invoked in that call, no worker responses are forwarded and no
end-of-block hook runs, the envelopes drained before the failure have been
consumed, and the failing envelope is not dropped: it remains at the head of
the pending queue (it was due in this block and is undecodable). -/
theorem c2_decode_failure_aborts_run
    (pluginRun : List (List ℚ) → List (List ℚ) → List (List ℚ))
    (workerIface : Option WorkerIfaceModel) (queue : List (PluginKey × WorkerJobM))
    (rt : ℚ) (s : LV2InstanceState)
    (hab : (drainLoop rt s.sampleRate s.blockSize s.eventBuffer).2.2 = true) :
    (run pluginRun workerIface queue rt s).trace.pluginRan = false ∧
    (run pluginRun workerIface queue rt s).trace.workResponses = [] ∧
    (run pluginRun workerIface queue rt s).trace.endRunCalled = false ∧
    (∃ e rest2,
      (run pluginRun workerIface queue rt s).state.eventBuffer = e :: rest2 ∧
      e.2.decoded = none ∧ frameOffsetOf rt s.sampleRate e.1 ≤ s.blockSize) ∧
    (∃ consumed, s.eventBuffer =
      consumed ++ (run pluginRun workerIface queue rt s).state.eventBuffer) := by
  obtain ⟨n, h1, h2, h3, h4, h5⟩ :=
    drainLoop_spec rt s.sampleRate s.blockSize s.eventBuffer
  have htr := run_abort_trace pluginRun workerIface queue rt s hab
  refine ⟨htr.1, htr.2.1, htr.2.2.1, ?_, ?_⟩
  · rw [run_eventBuffer, h1]
    exact h4 hab
  · rw [run_eventBuffer, h1]
    exact ⟨s.eventBuffer.take n, (List.take_append_drop n _).symm⟩

/-- Claim C2, witness: the two-envelope queue with an undecodable head
satisfies the amended statement. -/
theorem c2_decode_failure_aborts_run_witness :
    (drainLoop 0 1 4
      (sampleState [(0, ⟨none⟩), (1, ⟨some [128, 60, 0]⟩)] [] [] false 4).eventBuffer).2.2
        = true ∧
    ((run (fun _ o => o) none [] 0
       (sampleState [(0, ⟨none⟩), (1, ⟨some [128, 60, 0]⟩)] [] [] false 4)).trace.pluginRan
         = false ∧
     (run (fun _ o => o) none [] 0
       (sampleState [(0, ⟨none⟩), (1, ⟨some [128, 60, 0]⟩)] [] [] false 4)).trace.workResponses
         = [] ∧
     (run (fun _ o => o) none [] 0
       (sampleState [(0, ⟨none⟩), (1, ⟨some [128, 60, 0]⟩)] [] [] false 4)).trace.endRunCalled
         = false ∧
     (∃ e rest2,
       (run (fun _ o => o) none [] 0
         (sampleState [(0, ⟨none⟩), (1, ⟨some [128, 60, 0]⟩)] [] [] false 4)).state.eventBuffer
           = e :: rest2 ∧
       e.2.decoded = none ∧ frameOffsetOf 0 1 e.1 ≤ 4) ∧
     (∃ consumed, [((0 : ℚ), SndSeqEvent.mk none), (1, ⟨some [128, 60, 0]⟩)] =
       consumed ++ (run (fun _ o => o) none [] 0
         (sampleState [(0, ⟨none⟩), (1, ⟨some [128, 60, 0]⟩)] [] [] false 4)).state.eventBuffer)) := by
  have hfo : frameOffsetOf 0 1 0 = 0 := by
    norm_num [frameOffsetOf, realTime2Frame]
  have hab : (drainLoop 0 1 4
      (sampleState [(0, ⟨none⟩), (1, ⟨some [128, 60, 0]⟩)] [] [] false 4).eventBuffer).2.2
        = true := by
    simp [sampleState, drainLoop, hfo]
  exact ⟨hab,
    c2_decode_failure_aborts_run (fun _ o => o) none [] 0
      (sampleState [(0, ⟨none⟩), (1, ⟨some [128, 60, 0]⟩)] [] [] false 4) hab⟩

/-! ## Claim C3 — in-order, at-most-once delivery -/

/-- Claim C3: over a pending queue with strictly increasing times (the
std::map invariant), the frame offsets of the events a run call appends to
the MIDI event-input ports are non-decreasing, and the delivered envelopes
are exactly an initial segment removed from the queue — so each envelope is
delivered at most once across all run calls. -/
theorem c3_delivery_monotone_and_once
    (pluginRun : List (List ℚ) → List (List ℚ) → List (List ℚ))
    (workerIface : Option WorkerIfaceModel) (queue : List (PluginKey × WorkerJobM))
    (rt : ℚ) (s : LV2InstanceState)
    (hs : List.Pairwise (fun p q : ℚ × SndSeqEvent => p.1 < q.1) s.eventBuffer) :
    List.Pairwise (· ≤ ·)
      ((run pluginRun workerIface queue rt s).trace.delivered.map
        (fun d => d.2.frames)) ∧
    ∃ consumed,
      s.eventBuffer =
        consumed ++ (run pluginRun workerIface queue rt s).state.eventBuffer ∧
      (run pluginRun workerIface queue rt s).trace.delivered.map Prod.fst =
        consumed.map Prod.fst := by
  obtain ⟨n, h1, h2, h3, h4, h5⟩ :=
    drainLoop_spec rt s.sampleRate s.blockSize s.eventBuffer
  rw [run_delivered, run_eventBuffer, h1, h2]
  constructor
  · rw [List.map_map, List.pairwise_map]
    have htake := hs.sublist (List.take_sublist n s.eventBuffer)
    exact htake.imp fun hlt => frameOffsetOf_mono rt s.sampleRate (le_of_lt hlt)
  · refine ⟨s.eventBuffer.take n, (List.take_append_drop n _).symm, ?_⟩
    rw [List.map_map]
    rfl

/-- Claim C3, witness: a sorted two-envelope queue at times 0 and 1, both
decodable, block length 4. -/
theorem c3_delivery_monotone_and_once_witness :
    List.Pairwise (fun p q : ℚ × SndSeqEvent => p.1 < q.1)
      [(0, ⟨some [144, 60, 100]⟩), ((1 : ℚ), SndSeqEvent.mk (some [128, 60, 0]))] ∧
    (List.Pairwise (· ≤ ·)
      ((run (fun _ o => o) none [] 0
        (sampleState [(0, ⟨some [144, 60, 100]⟩), (1, ⟨some [128, 60, 0]⟩)]
          [] [] false 4)).trace.delivered.map (fun d => d.2.frames)) ∧
     ∃ consumed,
      [((0 : ℚ), SndSeqEvent.mk (some [144, 60, 100])), (1, ⟨some [128, 60, 0]⟩)] =
        consumed ++ (run (fun _ o => o) none [] 0
          (sampleState [(0, ⟨some [144, 60, 100]⟩), (1, ⟨some [128, 60, 0]⟩)]
            [] [] false 4)).state.eventBuffer ∧
      (run (fun _ o => o) none [] 0
        (sampleState [(0, ⟨some [144, 60, 100]⟩), (1, ⟨some [128, 60, 0]⟩)]
          [] [] false 4)).trace.delivered.map Prod.fst = consumed.map Prod.fst) := by
  have hsorted : List.Pairwise (fun p q : ℚ × SndSeqEvent => p.1 < q.1)
      [(0, ⟨some [144, 60, 100]⟩), ((1 : ℚ), SndSeqEvent.mk (some [128, 60, 0]))] := by
    refine List.pairwise_cons.mpr ⟨?_, by simp⟩
    intro q hq
    rcases List.mem_cons.mp hq with hq | hq
    · rw [hq]
      norm_num
    · simp at hq
  exact ⟨hsorted,
    c3_delivery_monotone_and_once (fun _ o => o) none [] 0
      (sampleState [(0, ⟨some [144, 60, 100]⟩), (1, ⟨some [128, 60, 0]⟩)]
        [] [] false 4) hsorted⟩

/-! ## Claim C6 — late events are clamped, not dropped -/

/-- Claim C6: in a run call over a time-sorted queue of decodable envelopes,
every envelope whose time lies before the block start is delivered at frame
offset 0 (its time clamped to the block start) and removed from the pending
queue — late events fire immediately instead of being dropped. -/
theorem c6_late_event_delivered_at_zero
    (pluginRun : List (List ℚ) → List (List ℚ) → List (List ℚ))
    (workerIface : Option WorkerIfaceModel) (queue : List (PluginKey × WorkerJobM))
    (rt : ℚ) (s : LV2InstanceState)
    (hs : List.Pairwise (fun p q : ℚ × SndSeqEvent => p.1 < q.1) s.eventBuffer)
    (hdec : ∀ p ∈ s.eventBuffer, p.2.decoded.isSome = true)
    {t : ℚ} {e : SndSeqEvent} (hmem : (t, e) ∈ s.eventBuffer) (hlate : t < rt) :
    ∃ bytes, e.decoded = some bytes ∧
      (t, AtomEvent.mk 0 bytes) ∈
        (run pluginRun workerIface queue rt s).trace.delivered ∧
      ∀ p ∈ (run pluginRun workerIface queue rt s).state.eventBuffer, p.1 ≠ t := by
  obtain ⟨n, h1, h2, h3, h4, h5⟩ :=
    drainLoop_spec rt s.sampleRate s.blockSize s.eventBuffer
  rw [run_delivered, run_eventBuffer, h1, h2]
  have hsplit := List.take_append_drop n s.eventBuffer
  -- the late event cannot be in the surviving part of the queue
  have hnotdrop : (t, e) ∉ s.eventBuffer.drop n := by
    intro hin
    cases hdrop : s.eventBuffer.drop n with
    | nil => rw [hdrop] at hin; exact absurd hin (List.not_mem_nil _)
    | cons e2 r2 =>
      cases habt : (drainLoop rt s.sampleRate s.blockSize s.eventBuffer).2.2 with
      | true =>
        obtain ⟨e3, r3, he3, he3dec, _⟩ := h4 habt
        have he3mem : e3 ∈ s.eventBuffer := by
          rw [← hsplit]
          exact List.mem_append_right _ (by rw [he3]; exact List.mem_cons_self _ _)
        have := hdec e3 he3mem
        rw [he3dec] at this
        simp at this
      | false =>
        have hbig := h5 habt e2 r2 hdrop
        have he2t : e2.1 ≤ t := by
          have hpdrop := hs.sublist (List.drop_sublist n s.eventBuffer)
          rw [hdrop] at hpdrop
          rw [hdrop] at hin
          rcases List.mem_cons.mp hin with hin | hin
          · rw [← hin]
          · exact le_of_lt ((List.pairwise_cons.mp hpdrop).1 (t, e) hin)
        have hz : frameOffsetOf rt s.sampleRate e2.1 ≤ 0 := by
          have := frameOffsetOf_mono rt s.sampleRate he2t
          rw [frameOffsetOf_of_late rt s.sampleRate hlate] at this
          exact this
        omega
  have hintake : (t, e) ∈ s.eventBuffer.take n := by
    rw [← hsplit] at hmem
    rcases List.mem_append.mp hmem with h | h
    · exact h
    · exact absurd h hnotdrop
  obtain ⟨bytes, hbytes⟩ := Option.isSome_iff_exists.mp (h3 _ hintake).1
  have hb2 : e.decoded = some bytes := hbytes
  refine ⟨bytes, hb2, ?_, ?_⟩
  · have hval : ((fun p : ℚ × SndSeqEvent =>
        (p.1, AtomEvent.mk (frameOffsetOf rt s.sampleRate p.1)
          (p.2.decoded.getD []))) (t, e)) = (t, AtomEvent.mk 0 bytes) := by
      simp [frameOffsetOf_of_late rt s.sampleRate hlate, hb2]
    rw [← hval]
    exact List.mem_map_of_mem _ hintake
  · intro p hp
    rw [← hsplit] at hs
    have := (List.pairwise_append.mp hs).2.2 (t, e) hintake p hp
    exact fun hpt => absurd (hpt ▸ this) (lt_irrefl t)

/-- Claim C6, witness: an envelope at time 1 in a block starting at time 2 is
delivered at frame offset 0 and leaves the queue. -/
theorem c6_late_event_delivered_at_zero_witness :
    ((1 : ℚ) < 2) ∧
    (∃ bytes, (SndSeqEvent.mk (some [144, 60, 100])).decoded = some bytes ∧
      ((1 : ℚ), AtomEvent.mk 0 bytes) ∈
        (run (fun _ o => o) none [] 2
          (sampleState [(1, ⟨some [144, 60, 100]⟩)] [] [] false 4)).trace.delivered ∧
      ∀ p ∈ (run (fun _ o => o) none [] 2
          (sampleState [(1, ⟨some [144, 60, 100]⟩)] [] [] false 4)).state.eventBuffer,
        p.1 ≠ 1) := by
  refine ⟨by norm_num, ?_⟩
  exact c6_late_event_delivered_at_zero (fun _ o => o) none [] 2
    (sampleState [(1, ⟨some [144, 60, 100]⟩)] [] [] false 4)
    (by simp [sampleState]) (by simp [sampleState]) (by simp [sampleState])
    (by norm_num)

/-! ## Claim C4 — null instantiation handle -/

/-- Claim C4: when the ABI instantiate call returns a null handle, the
constructor leaves the instance non-runnable (isOK false), issues no
connect-port or activate call, and the engine never invokes run for it,
however many blocks it processes.  (isOK and the engine's exclusion of
non-runnable instances are modelled from the spec; the constructor's guard
is lines 111-115 of the source.) -/
theorem c4_null_handle_not_runnable (nBlocks : Nat) :
    isOK (constructorLifecycle none).1 = false ∧
    LCall.connectPortsCall ∉ (constructorLifecycle none).2 ∧
    LCall.activateCall ∉ (constructorLifecycle none).2 ∧
    LCall.runCall ∉ engineRunCalls (constructorLifecycle none).1 nBlocks := by
  refine ⟨rfl, by decide, by decide, ?_⟩
  simp [engineRunCalls, constructorLifecycle, isOK]

/-! ## Claim C5 — mono/stereo channel adaptation -/

/-- Claim C5: the instance is flagged for channel distribution exactly when
port discovery found one audio input and one audio output and the ideal
channel count is two; in a distributed run the pre-pass averages the two
host input channels into the mono input and the post-pass copies the mono
output into both host output channels; an undistributed run leaves the input
buffers alone and takes the plugin's outputs as they are; and on the spec's
test vectors: inputs L = [1,3], R = [3,5] downmix to [2,4], and a mono
output [2,4] is duplicated onto both channels. -/
theorem c5_channel_adaptation :
    (∀ (portData : List LV2PortData) (cc : Nat),
      (init portData cc).distributeChannels = true ↔
        ((classifyPortsFrom 0 portData).audioPortsIn.length = 1 ∧
         (classifyPortsFrom 0 portData).audioPortsOut.length = 1 ∧ cc = 2)) ∧
    (∀ (pluginRun : List (List ℚ) → List (List ℚ) → List (List ℚ))
       (workerIface : Option WorkerIfaceModel)
       (queue : List (PluginKey × WorkerJobM)) (rt : ℚ) (s : LV2InstanceState),
      (drainLoop rt s.sampleRate s.blockSize s.eventBuffer).2.2 = false →
      s.distributeChannels = true →
      (run pluginRun workerIface queue rt s).state.inputBuffers =
        stereoToMono s.inputBuffers ∧
      (run pluginRun workerIface queue rt s).state.outputBuffers =
        monoToStereo (pluginRun (stereoToMono s.inputBuffers) s.outputBuffers)) ∧
    (∀ (pluginRun : List (List ℚ) → List (List ℚ) → List (List ℚ))
       (workerIface : Option WorkerIfaceModel)
       (queue : List (PluginKey × WorkerJobM)) (rt : ℚ) (s : LV2InstanceState),
      (drainLoop rt s.sampleRate s.blockSize s.eventBuffer).2.2 = false →
      s.distributeChannels = false →
      (run pluginRun workerIface queue rt s).state.inputBuffers =
        s.inputBuffers ∧
      (run pluginRun workerIface queue rt s).state.outputBuffers =
        pluginRun s.inputBuffers s.outputBuffers) ∧
    stereoToMono [[1, 3], [3, 5]] = [[2, 4], [3, 5]] ∧
    monoToStereo [[2, 4], [7, 8]] = [[2, 4], [2, 4]] := by
  refine ⟨?_, ?_, ?_, ?_, ?_⟩
  · intro portData cc
    by_cases h : (classifyPortsFrom 0 portData).audioPortsIn.length = 1 ∧
        (classifyPortsFrom 0 portData).audioPortsOut.length = 1 ∧ cc = 2
    · simp [init, h]
    · simp only [init, if_neg h]
      simpa using h
  · intro pluginRun workerIface queue rt s hab hdist
    have hb := run_noAbort_buffers pluginRun workerIface queue rt s hab
    rw [hdist] at hb
    exact ⟨by simpa using hb.1, by simpa using hb.2.1⟩
  · intro pluginRun workerIface queue rt s hab hdist
    have hb := run_noAbort_buffers pluginRun workerIface queue rt s hab
    rw [hdist] at hb
    exact ⟨by simpa using hb.1, by simpa using hb.2.1⟩
  · show List.zipWith (fun x y => (x + y) / 2) [(1 : ℚ), 3] [3, 5] :: _ = _
    norm_num
  · rfl

/-- Claim C5, witness: the adaptation branch of the theorem applied to the
spec's test vectors, with a plugin writing the mono output [2,4]: the stored
input buffers end as [[2,4],[3,5]] and both output channels as [2,4]. -/
theorem c5_channel_adaptation_witness :
    (drainLoop 0 1 2
      (sampleState [] [[1, 3], [3, 5]] [[0, 0], [7, 8]] true 2).eventBuffer).2.2 =
        false ∧
    (sampleState [] [[1, 3], [3, 5]] [[0, 0], [7, 8]] true 2).distributeChannels =
      true ∧
    (run (fun _ _ => [[2, 4], [7, 8]]) none [] 0
      (sampleState [] [[1, 3], [3, 5]] [[0, 0], [7, 8]] true 2)).state.inputBuffers =
        [[2, 4], [3, 5]] ∧
    (run (fun _ _ => [[2, 4], [7, 8]]) none [] 0
      (sampleState [] [[1, 3], [3, 5]] [[0, 0], [7, 8]] true 2)).state.outputBuffers =
        [[2, 4], [2, 4]] := by
  have hab : (drainLoop 0 1 2
      (sampleState [] [[1, 3], [3, 5]] [[0, 0], [7, 8]] true 2).eventBuffer).2.2 =
        false := rfl
  have h := c5_channel_adaptation.2.1 (fun _ _ => [[2, 4], [7, 8]]) none [] 0
    (sampleState [] [[1, 3], [3, 5]] [[0, 0], [7, 8]] true 2) hab rfl
  refine ⟨hab, rfl, h.1.trans ?_, h.2.trans ?_⟩
  · show List.zipWith (fun x y => (x + y) / 2) [(1 : ℚ), 3] [3, 5] :: _ = _
    norm_num
  · rfl

/-! ## Claim C7 — control-port clamping round trip -/

/-- Claim C7: for a control-input port whose declared range [min, max] is
non-degenerate, setPortValue followed by getPortValue returns the value
clamped to the declared range. -/
theorem c7_setPortValue_getPortValue_clamps
    (st : ControlPortState) (portNumber : Nat) (v v0 : ℚ)
    (hin : mapLookup portNumber st.controlPortsIn = some v0)
    (hmm : (st.ports.getD portNumber defaultPortData).min ≤
      (st.ports.getD portNumber defaultPortData).max) :
    getPortValue (setPortValue st portNumber v) portNumber =
      max (st.ports.getD portNumber defaultPortData).min
        (min v (st.ports.getD portNumber defaultPortData).max) := by
  unfold setPortValue
  rw [hin]
  unfold getPortValue
  simp only [mapLookup_mapUpdate_self]
  exact clamp_ite_eq_max_min _ _ _ hmm

/-- Claim C7, witness: the spec's example — a control port with declared
range [0, 1] set to 1.5 reads back as 1. -/
theorem c7_setPortValue_getPortValue_clamps_witness :
    mapLookup 0 [((0 : Nat), (0 : ℚ))] = some 0 ∧
    getPortValue
      (setPortValue
        ⟨[(0, 0)],
         [⟨LV2PortType.LV2CONTROL, true, LV2PortProtocol.LV2FLOAT, 0, 1⟩]⟩
        0 (3 / 2)) 0 = 1 := by
  have hin : mapLookup 0 [((0 : Nat), (0 : ℚ))] = some 0 := by
    simp [mapLookup]
  refine ⟨hin, ?_⟩
  have h := c7_setPortValue_getPortValue_clamps
    ⟨[(0, 0)], [⟨LV2PortType.LV2CONTROL, true, LV2PortProtocol.LV2FLOAT, 0, 1⟩]⟩
    0 (3 / 2) 0 hin (by norm_num [defaultPortData])
  refine h.trans ?_
  norm_num

/-! ## Claim C8 — worker-response hand-off -/

/-- Claim C8: in every run call that reaches the plugin callback, when the
plugin exposes a worker interface, exactly the completed jobs queued under
this instance's (instrument, position) key are removed from the response
queue and forwarded in order to work_response — each exactly once, none is
left behind — and end_run is then called exactly when the plugin provides
it; when the plugin exposes no worker interface, nothing is forwarded, no
hook runs, and the queue is untouched. -/
theorem c8_worker_responses_forwarded_once
    (pluginRun : List (List ℚ) → List (List ℚ) → List (List ℚ))
    (w : WorkerIfaceModel) (queue : List (PluginKey × WorkerJobM))
    (rt : ℚ) (s : LV2InstanceState)
    (hab : (drainLoop rt s.sampleRate s.blockSize s.eventBuffer).2.2 = false) :
    ((run pluginRun (some w) queue rt s).trace.workResponses =
        (queue.filter
          (fun p => p.1 == PluginKey.mk s.instrument s.position)).map Prod.snd ∧
     (run pluginRun (some w) queue rt s).queue =
        queue.filter (fun p => !(p.1 == PluginKey.mk s.instrument s.position)) ∧
     (∀ p ∈ (run pluginRun (some w) queue rt s).queue,
        p.1 ≠ PluginKey.mk s.instrument s.position) ∧
     (run pluginRun (some w) queue rt s).trace.endRunCalled = w.hasEndRun ∧
     (run pluginRun (some w) queue rt s).trace.pluginRan = true) ∧
    ((run pluginRun none queue rt s).trace.workResponses = [] ∧
     (run pluginRun none queue rt s).trace.endRunCalled = false ∧
     (run pluginRun none queue rt s).queue = queue) := by
  have hsome := run_noAbort_worker_some pluginRun w queue rt s hab
  have hnone := run_noAbort_worker_none pluginRun queue rt s hab
  have hbuf := run_noAbort_buffers pluginRun (some w) queue rt s hab
  refine ⟨⟨?_, ?_, ?_, hsome.2.2, hbuf.2.2⟩, hnone.1, hnone.2.2, hnone.2.1⟩
  · rw [hsome.1, collectResponses_fst]
  · rw [hsome.2.1, collectResponses_snd]
  · intro p hp
    rw [hsome.2.1, collectResponses_snd] at hp
    have := List.of_mem_filter hp
    simpa using this

/-- Claim C8, witness: a queue holding two jobs for this instance's key
(7, 2) around a job for another instance: both matching jobs are forwarded
in order, the foreign job stays, and end_run (present) is called. -/
theorem c8_worker_responses_forwarded_once_witness :
    (drainLoop 0 1 (sampleState [] [] [] false 4).blockSize
      (sampleState [] [] [] false 4).eventBuffer).2.2 = false ∧
    ((run (fun _ o => o) (some ⟨true⟩)
        [(⟨7, 2⟩, ⟨[1]⟩), (⟨8, 3⟩, ⟨[2]⟩), (⟨7, 2⟩, ⟨[3]⟩)] 0
        (sampleState [] [] [] false 4)).trace.workResponses = [⟨[1]⟩, ⟨[3]⟩] ∧
     (run (fun _ o => o) (some ⟨true⟩)
        [(⟨7, 2⟩, ⟨[1]⟩), (⟨8, 3⟩, ⟨[2]⟩), (⟨7, 2⟩, ⟨[3]⟩)] 0
        (sampleState [] [] [] false 4)).queue = [(⟨8, 3⟩, ⟨[2]⟩)] ∧
     (run (fun _ o => o) (some ⟨true⟩)
        [(⟨7, 2⟩, ⟨[1]⟩), (⟨8, 3⟩, ⟨[2]⟩), (⟨7, 2⟩, ⟨[3]⟩)] 0
        (sampleState [] [] [] false 4)).trace.endRunCalled = true) := by
  have hab : (drainLoop 0 1 (sampleState [] [] [] false 4).blockSize
      (sampleState [] [] [] false 4).eventBuffer).2.2 = false := rfl
  have h := (c8_worker_responses_forwarded_once (fun _ o => o) ⟨true⟩
    [(⟨7, 2⟩, ⟨[1]⟩), (⟨8, 3⟩, ⟨[2]⟩), (⟨7, 2⟩, ⟨[3]⟩)] 0
    (sampleState [] [] [] false 4) hab).1
  refine ⟨hab, h.1.trans (by decide), h.2.1.trans (by decide), h.2.2.2.1⟩

/-! ## Claim C9 — channel-count change lifecycle -/

/-- Claim C9, counterexample: changing the ideal channel count of a runnable
instance from 2 to 1 deactivates, destroys and re-creates the plugin
instance and reactivates it, but never frees the host audio buffers: no
buffer-free step appears in the calls issued and the buffers are bit-for-bit
the ones from before (only the destructor frees them).  This falsifies the
claim's "its old buffers are freed". -/
theorem c9_buffers_not_freed_counterexample :
    (setIdealChannelCount (some ()) 1 ⟨2, some (), [[0]], [[0]]⟩).2 =
      [LCall.deactivateCall, LCall.cleanupCall, LCall.instantiateCall,
       LCall.connectPortsCall, LCall.activateCall] ∧
    LCall.freeBuffersCall ∉ (setIdealChannelCount (some ()) 1 ⟨2, some (), [[0]], [[0]]⟩).2 ∧
    (setIdealChannelCount (some ()) 1 ⟨2, some (), [[0]], [[0]]⟩).1.inputBuffers =
      [[0]] ∧
    (setIdealChannelCount (some ()) 1 ⟨2, some (), [[0]], [[0]]⟩).1.outputBuffers =
      [[0]] ∧
    LCall.freeBuffersCall ∈ destructorLifecycle ⟨2, some (), [[0]], [[0]]⟩ := by
  have h : (setIdealChannelCount (some ()) 1
      (⟨2, some (), [[0]], [[0]]⟩ : InstState)).2 =
      [LCall.deactivateCall, LCall.cleanupCall, LCall.instantiateCall,
       LCall.connectPortsCall, LCall.activateCall] := by
    simp [setIdealChannelCount, isOK]
  refine ⟨h, ?_, ?_, ?_, ?_⟩
  · rw [h]
    decide
  · simp [setIdealChannelCount, isOK]
  · simp [setIdealChannelCount, isOK]
  · simp [destructorLifecycle]

/-- Claim C9 (amended): changing the ideal channel count to a different
value on a runnable instance deactivates it, destroys the plugin instance
(cleanup), re-instantiates and — the new instantiation succeeding —
reconnects and reactivates it, in that order; the host audio buffers are
neither freed nor reallocated and the stored channel count is unchanged;
requesting the current channel count changes nothing and issues no call. -/
theorem c9_channel_count_change_lifecycle
    (abiHandle : Option Unit) (channels : Nat) (st : InstState)
    (hne : channels ≠ st.channelCount)
    (hok : isOK st.instHandle = true)
    (hok2 : isOK abiHandle = true) :
    (setIdealChannelCount abiHandle channels st).2 =
      [LCall.deactivateCall, LCall.cleanupCall, LCall.instantiateCall,
       LCall.connectPortsCall, LCall.activateCall] ∧
    LCall.freeBuffersCall ∉ (setIdealChannelCount abiHandle channels st).2 ∧
    (setIdealChannelCount abiHandle channels st).1.inputBuffers =
      st.inputBuffers ∧
    (setIdealChannelCount abiHandle channels st).1.outputBuffers =
      st.outputBuffers ∧
    (setIdealChannelCount abiHandle channels st).1.channelCount =
      st.channelCount ∧
    setIdealChannelCount abiHandle st.channelCount st = (st, []) := by
  have h : (setIdealChannelCount abiHandle channels st).2 =
      [LCall.deactivateCall, LCall.cleanupCall, LCall.instantiateCall,
       LCall.connectPortsCall, LCall.activateCall] := by
    simp [setIdealChannelCount, hne, hok, hok2]
  refine ⟨h, ?_, ?_, ?_, ?_, ?_⟩
  · rw [h]
    decide
  · simp [setIdealChannelCount, hne]
  · simp [setIdealChannelCount, hne]
  · simp [setIdealChannelCount, hne]
  · simp [setIdealChannelCount]

/-- Claim C9, witness: the amended statement at the concrete runnable
instance with channel count 2, new count 1, and a succeeding
re-instantiation. -/
theorem c9_channel_count_change_lifecycle_witness :
    ((1 : Nat) ≠ 2) ∧
    ((setIdealChannelCount (some ()) 1 ⟨2, some (), [[0, 0]], [[0, 0]]⟩).2 =
      [LCall.deactivateCall, LCall.cleanupCall, LCall.instantiateCall,
       LCall.connectPortsCall, LCall.activateCall] ∧
     LCall.freeBuffersCall ∉
       (setIdealChannelCount (some ()) 1 ⟨2, some (), [[0, 0]], [[0, 0]]⟩).2 ∧
     (setIdealChannelCount (some ()) 1 ⟨2, some (), [[0, 0]], [[0, 0]]⟩).1.inputBuffers =
       [[0, 0]] ∧
     (setIdealChannelCount (some ()) 1 ⟨2, some (), [[0, 0]], [[0, 0]]⟩).1.outputBuffers =
       [[0, 0]] ∧
     (setIdealChannelCount (some ()) 1 ⟨2, some (), [[0, 0]], [[0, 0]]⟩).1.channelCount =
       2 ∧
     setIdealChannelCount (some ()) 2 ⟨2, some (), [[0, 0]], [[0, 0]]⟩ =
       (⟨2, some (), [[0, 0]], [[0, 0]]⟩, [])) :=
  ⟨by decide,
   c9_channel_count_change_lifecycle (some ()) 1 ⟨2, some (), [[0, 0]], [[0, 0]]⟩
     (by decide) rfl rfl⟩

/-! ## Claim C10 — one event per timestamp -/

/-- Claim C10: sending a second event with the same timestamp (with no run
or discardEvents in between) replaces the first outright — the buffer after
the two sends equals the buffer after sending only the second — and
insertion keeps the queue strictly sorted by time, so the queue never holds
two events with the same timestamp and at most one of the two is ever
delivered. -/
theorem c10_sendEvent_same_time_replaces
    (t : ℚ) (e1 e2 : SndSeqEvent) (buf : List (ℚ × SndSeqEvent))
    (hs : List.Pairwise (fun p q : ℚ × SndSeqEvent => p.1 < q.1) buf) :
    sendEvent t e2 (sendEvent t e1 buf) = sendEvent t e2 buf ∧
    List.Pairwise (fun p q : ℚ × SndSeqEvent => p.1 < q.1)
      (sendEvent t e2 (sendEvent t e1 buf)) ∧
    List.Pairwise (fun p q : ℚ × SndSeqEvent => p.1 ≠ q.1)
      (sendEvent t e2 (sendEvent t e1 buf)) := by
  have hrep := sendEvent_overwrite t e1 e2 buf
  have hsorted := sendEvent_sorted t e2 buf hs
  refine ⟨hrep, ?_, ?_⟩
  · rw [hrep]
    exact hsorted
  · rw [hrep]
    exact hsorted.imp fun hlt => ne_of_lt hlt

/-- Claim C10, witness: two sends at time 1 into the singleton queue at time
0 — the second event replaces the first. -/
theorem c10_sendEvent_same_time_replaces_witness :
    List.Pairwise (fun p q : ℚ × SndSeqEvent => p.1 < q.1)
      [((0 : ℚ), SndSeqEvent.mk (some [0]))] ∧
    (sendEvent 1 ⟨some [2]⟩ (sendEvent 1 ⟨some [1]⟩ [(0, ⟨some [0]⟩)]) =
       sendEvent 1 ⟨some [2]⟩ [((0 : ℚ), SndSeqEvent.mk (some [0]))] ∧
     List.Pairwise (fun p q : ℚ × SndSeqEvent => p.1 < q.1)
       (sendEvent 1 ⟨some [2]⟩ (sendEvent 1 ⟨some [1]⟩ [(0, ⟨some [0]⟩)])) ∧
     List.Pairwise (fun p q : ℚ × SndSeqEvent => p.1 ≠ q.1)
       (sendEvent 1 ⟨some [2]⟩ (sendEvent 1 ⟨some [1]⟩ [(0, ⟨some [0]⟩)]))) :=
  ⟨by simp,
   c10_sendEvent_same_time_replaces 1 ⟨some [1]⟩ ⟨some [2]⟩ [(0, ⟨some [0]⟩)]
     (by simp)⟩

end RGLV2
